import Mathlib

/-!
Shallow embedding of the buffer-analysis endpoint of `src/app.py` (a Flask +
GeoPandas service).  Planar geometry is modelled over ℚ, with a geometry given
as a finite union of closed axis-aligned rectangles: line geometries are
(possibly degenerate) rectangles, `buffer` is the uniform dilation, and
`within` is exact topological interior membership for such unions, matching
shapely's boundary-exclusive `within` predicate.  The database reads are
snapshot inputs (the geometry-columns mapping and the two collections); the
file-export block of the endpoint (lines 197–233) performs only I/O and is
outside the modelled scope.
-/

namespace App

/-- A planar point with rational coordinates. -/
abbrev Pt : Type := ℚ × ℚ

/-- A closed axis-aligned rectangle spanning x1 to x2 and y1 to y2.  Line
geometries are (possibly degenerate) rectangles; buffers are their
dilations. -/
structure Rect where
  x1 : ℚ
  x2 : ℚ
  y1 : ℚ
  y2 : ℚ
  deriving DecidableEq

/-- Closed membership of a point in a rectangle. -/
def Rect.memB (r : Rect) (p : Pt) : Bool :=
  decide (r.x1 ≤ p.1) && decide (p.1 ≤ r.x2) && decide (r.y1 ≤ p.2) && decide (p.2 ≤ r.y2)

/-- A geometry: a finite union of closed rectangles (a shapely polygon or
multipolygon over this domain).  The `unary_union` of a list of buffers is
list concatenation of the parts, since regions are compared pointwise. -/
abbrev Geom : Type := List Rect

/-- The buffer operation of line 147 for this domain: dilation of a
rectangle by `size` on every side. -/
def bufferRect (r : Rect) (size : ℚ) : Rect :=
  { x1 := r.x1 - size, x2 := r.x2 + size, y1 := r.y1 - size, y2 := r.y2 + size }

/-- Some rectangle of `g` contains `p` and extends strictly beyond it in the
quadrant direction given by `dx`, `dy` (`true` means the positive
direction). -/
def quadCovered (g : Geom) (p : Pt) (dx dy : Bool) : Bool :=
  g.any fun r =>
    r.memB p &&
      (if dx then decide (p.1 < r.x2) else decide (r.x1 < p.1)) &&
      (if dy then decide (p.2 < r.y2) else decide (r.y1 < p.2))

/-- Shapely's `.within` for a point against a polygonal geometry: membership
in the topological interior of the union of the rectangles.  For a finite
union of closed axis-aligned rectangles, a point is interior to the union
exactly when each of its four corner-quadrant neighbourhoods is covered by a
single rectangle of the union, which is what this predicate decides. -/
def within (p : Pt) (g : Geom) : Bool :=
  quadCovered g p true true && quadCovered g p true false &&
    quadCovered g p false true && quadCovered g p false false

/-- Membership in the closure of the union. -/
def inClosure (p : Pt) (g : Geom) : Bool :=
  g.any fun r => r.memB p

/-- The point lies on the topological boundary of the union: in the closure
but not in the interior. -/
def onBoundary (p : Pt) (g : Geom) : Prop :=
  inClosure p g = true ∧ within p g = false

/-- A point record: geometry plus named attributes (values stringified). -/
structure PointRec where
  pos : Pt
  attrs : List (String × String)
  deriving DecidableEq

/-- A line record: geometry plus named attributes. -/
structure LineRec where
  geom : Rect
  attrs : List (String × String)
  deriving DecidableEq

/-- A coordinate reference system: an identifying tag (authority code or raw
parameter string) and its geographic-versus-metric classification. -/
structure CRS where
  tag : String
  is_geographic : Bool
  deriving DecidableEq

/-- The line collection read at line 121: CRS, column names and records. -/
structure LinesColl where
  crs : CRS
  cols : List String
  recs : List LineRec
  deriving DecidableEq

/-- The point collection read at line 122: CRS, column names and records. -/
structure PointsColl where
  crs : CRS
  cols : List String
  recs : List PointRec
  deriving DecidableEq

/-- Reprojection of the point collection: the collection is re-tagged with
the target CRS.  The numeric coordinate transformation is modelled as the
identity: no claim below depends on the numeric effect of reprojection, only
on record counts and on containment relations computed inside one shared
CRS. -/
def PointsColl.to_crs (c : PointsColl) (t : CRS) : PointsColl := { c with crs := t }

/-- Reprojection of the line collection; see `PointsColl.to_crs`. -/
def LinesColl.to_crs (c : LinesColl) (t : CRS) : LinesColl := { c with crs := t }

/-- The centroid access of lines 133–134: the centroid of the union of the
line geometries, defined only for a non-empty collection — for an empty one
the union has no centroid coordinates and the attribute access raises,
surfacing as a generic 500 response.  The value is modelled as the average of
the rectangle centres; only its definedness and its two components are used
by the claims. -/
def centroid (rs : List Rect) : Option Pt :=
  match rs with
  | [] => none
  | _ =>
    some ((rs.map fun r => (r.x1 + r.x2) / 2).sum / (rs.length : ℚ),
      (rs.map fun r => (r.y1 + r.y2) / 2).sum / (rs.length : ℚ))

/-- Python integer conversion of a real number: truncation toward zero. -/
def pyInt (q : ℚ) : ℤ := if 0 ≤ q then ⌊q⌋ else ⌈q⌉

/-- Line 135: the UTM zone computed from the centroid longitude. -/
def utm_zone (lon : ℚ) : ℤ := pyInt ((lon + 180) / 6) + 1

/-- Line 136: the hemisphere computed from the centroid latitude. -/
def hemisphere (lat : ℚ) : String := if 0 ≤ lat then "north" else "south"

/-- A CRS construction request: either by authority code (an EPSG-style
number) or from a raw proj parameter string. -/
inductive CrsSpec where
  | authorityCode (code : String)
  | projString (s : String)
  deriving DecidableEq

/-- Whether a CRS construction is by authority code. -/
def CrsSpec.isAuthorityCode : CrsSpec → Bool
  | .authorityCode _ => true
  | .projString _ => false

/-- Line 137: the UTM projection is built directly as a raw proj parameter
string. -/
def utm_crs (zone : ℤ) (hemi : String) : CrsSpec :=
  .projString ("+proj=utm +zone=" ++ toString zone ++ " +" ++ hemi ++
    " +datum=WGS84 +units=m +no_defs")

/-- The CRS denoted by a construction; a constructed UTM CRS is metric. -/
def crsOfSpec : CrsSpec → CRS
  | .authorityCode c => { tag := c, is_geographic := false }
  | .projString s => { tag := s, is_geographic := false }

/-- An error response, as produced by the endpoint's error returns: a
message and an HTTP status code. -/
structure ErrorResp where
  msg : String
  status : ℕ
  deriving DecidableEq

/-- One entry of `results_by_line` (lines 186–195). -/
structure LineResult where
  line_id : String
  total_points : ℕ
  tier_counts : Option (List (String × ℕ))
  deriving DecidableEq

/-- The success payload of the endpoint (lines 235–246), without the two
download file names (an I/O side channel of the export block). -/
structure AnalysisResult where
  total_points_in_buffer : ℕ
  total_points : ℕ
  line_count : ℕ
  buffer_size : ℚ
  tier_column : String
  overall_tier_counts : List (String × ℕ)
  results_by_line : List LineResult
  deriving DecidableEq

/-- The JSON body of an analyze request (lines 83–88); absent keys are
`none`. -/
structure ReqParams where
  database : Option String
  line_table : Option String
  point_table : Option String
  buffer_size : Option ℚ
  tier_column : Option String
  deriving DecidableEq

/-- Python truthiness of an optional string: an absent value and the empty
string are falsy. -/
def truthy : Option String → Bool
  | none => false
  | some s => !(s == "")

/-- The request parameters after defaulting (lines 84–88). -/
structure ParsedParams where
  database : String
  line_table : String
  point_table : String
  buffer_size : ℚ
  tier_column : String
  deriving DecidableEq

/-- Lines 84–91: default the buffer size to 30 and the tier column to
"severity", then reject with the missing-parameter message unless database,
line table and point table are all truthy. -/
def parseParams (req : ReqParams) : Except ErrorResp ParsedParams :=
  if truthy req.database && truthy req.line_table && truthy req.point_table then
    .ok { database := req.database.getD ""
          line_table := req.line_table.getD ""
          point_table := req.point_table.getD ""
          buffer_size := req.buffer_size.getD 30
          tier_column := req.tier_column.getD "severity" }
  else
    .error { msg := "Missing required parameters", status := 400 }

/-- Lines 99–116: the geometry-columns rows for the two tables give a
table-to-column mapping; if either table is absent, the one fixed message is
returned with status 400, else the two geometry column names. -/
def resolveGeomCols (line_table point_table : String)
    (geomInfo : List (String × String)) : Except ErrorResp (String × String) :=
  match geomInfo.lookup line_table, geomInfo.lookup point_table with
  | some lg, some pg => .ok (lg, pg)
  | _, _ => .error { msg := "Could not find geometry columns for tables", status := 400 }

/-- Lines 127–129: reproject the points into the line CRS when the two CRS
tags differ (lines are authoritative). -/
def alignPoints (lines : LinesColl) (points : PointsColl) : PointsColl :=
  if points.crs ≠ lines.crs then points.to_crs lines.crs else points

/-- Lines 126–144: align the point CRS to the line CRS, then, when the
shared CRS is geographic, derive a UTM projection from the centroid of the
union of the line geometries and reproject both collections into it;
otherwise both pass through as copies.  The only failure is the centroid of
an empty line collection, which surfaces as a generic 500 response. -/
def normalizeCrs (lines : LinesColl) (points : PointsColl) :
    Except ErrorResp (LinesColl × PointsColl) :=
  let points1 := alignPoints lines points
  if lines.crs.is_geographic then
    match centroid (lines.recs.map fun l => l.geom) with
    | none =>
      .error { msg := "centroid of empty geometry collection has no coordinates", status := 500 }
    | some c =>
      let u := crsOfSpec (utm_crs (utm_zone c.1) (hemisphere c.2))
      .ok (lines.to_crs u, points1.to_crs u)
  else
    .ok (lines, points1)

/-- Line 147: one buffer polygon per line record. -/
def buffersOf (lines : List LineRec) (size : ℚ) : Geom :=
  lines.map fun l => bufferRect l.geom size

/-- Lines 150–151: the points strictly within the union of all buffers. -/
def pointsInBuffer (pts : List PointRec) (g : Geom) : List PointRec :=
  pts.filter fun p => within p.pos g

/-- Line 173: the points strictly within one line's individual buffer. -/
def pointsInLine (pts : List PointRec) (b : Rect) : List PointRec :=
  pts.filter fun p => within p.pos [b]

/-- Python lower-casing of a string, character by character. -/
def pyLower (s : String) : String := String.mk (s.data.map Char.toLower)

/-- Python upper-casing of a string, character by character. -/
def pyUpper (s : String) : String := String.mk (s.data.map Char.toUpper)

/-- Python string capitalization: first character upper-cased, the remainder
lower-cased. -/
def pyCapitalize (s : String) : String :=
  String.mk ((s.data.take 1).map Char.toUpper ++ (s.data.drop 1).map Char.toLower)

/-- Lines 156–161: try the configured name and its lower-case, upper-case
and capitalized variants, in that order, against the columns of the
points-in-buffer frame. -/
def tierColFound (tier_column : String) (cols : List String) : Option String :=
  [tier_column, pyLower tier_column, pyUpper tier_column, pyCapitalize tier_column].find?
    fun c => cols.contains c

/-- The value-counts tabulation of lines 166 and 192: occurrence count per
distinct value, here in first-appearance order (the ordering is not
contractual). -/
def valueCounts (vs : List String) : List (String × ℕ) :=
  (vs.foldl (fun acc v => if v ∈ acc then acc else acc ++ [v]) []).map fun v => (v, vs.count v)

/-- The tier value of a point record under a resolved column name. -/
def tierValue (col : String) (p : PointRec) : String := (p.attrs.lookup col).getD ""

/-- Lines 163–167: overall tier counts, empty unless the tier column was
resolved and some point fell inside the buffer union. -/
def overallTierCounts (tcf : Option String) (pib : List PointRec) : List (String × ℕ) :=
  match tcf with
  | some col => if 0 < pib.length then valueCounts (pib.map (tierValue col)) else []
  | none => []

/-- Lines 179–184: the row index plus one, overridden by a gid or id
attribute when present. -/
def lineId (idx : ℕ) (l : LineRec) : String :=
  match l.attrs.lookup "gid" with
  | some g => g
  | none =>
    match l.attrs.lookup "id" with
    | some i => i
    | none => toString (idx + 1)

/-- Lines 170–195: per-line statistics; a line capturing zero points is
skipped, and per-line tier counts are attached only when the tier column was
resolved. -/
def lineResults (lines : List LineRec) (size : ℚ) (pts : List PointRec)
    (tcf : Option String) : List LineResult :=
  lines.enum.filterMap fun il =>
    let pil := pointsInLine pts (bufferRect il.2.geom size)
    if pil.length = 0 then none
    else
      some { line_id := lineId il.1 il.2
             total_points := pil.length
             tier_counts := tcf.map fun col => valueCounts (pil.map (tierValue col)) }

/-- Lines 147–195 and 235–246: buffer construction, membership tests,
aggregation and the success payload. -/
def computeResult (pp : ParsedParams) (lines : LinesColl) (points : PointsColl)
    (lines_proj : LinesColl) (points_proj : PointsColl) : AnalysisResult :=
  let bufs := buffersOf lines_proj.recs pp.buffer_size
  let pib := pointsInBuffer points_proj.recs bufs
  let tcf := tierColFound pp.tier_column points.cols
  { total_points_in_buffer := pib.length
    total_points := points.recs.length
    line_count := lines.recs.length
    buffer_size := pp.buffer_size
    tier_column :=
      match tcf with
      | some c => c
      | none => pp.tier_column ++ " (not found)"
    overall_tier_counts := overallTierCounts tcf pib
    results_by_line := lineResults lines_proj.recs pp.buffer_size points_proj.recs tcf }

/-- The analyze endpoint (lines 79–252) over snapshot inputs: the
geometry-columns rows and the two collections stand in for the database
reads; each stage's early error return propagates. -/
def analyze (req : ReqParams) (geomInfo : List (String × String))
    (lines : LinesColl) (points : PointsColl) : Except ErrorResp AnalysisResult :=
  match parseParams req with
  | .error e => .error e
  | .ok pp =>
    match resolveGeomCols pp.line_table pp.point_table geomInfo with
    | .error e => .error e
    | .ok _ =>
      match normalizeCrs lines points with
      | .error e => .error e
      | .ok lp => .ok (computeResult pp lines points lp.1 lp.2)

theorem mem_pointsInBuffer (p : PointRec) (pts : List PointRec) (g : Geom) :
    p ∈ pointsInBuffer pts g ↔ p ∈ pts ∧ within p.pos g = true := by
  simp [pointsInBuffer, List.mem_filter]

theorem mem_pointsInLine (p : PointRec) (pts : List PointRec) (b : Rect) :
    p ∈ pointsInLine pts b ↔ p ∈ pts ∧ within p.pos [b] = true := by
  simp [pointsInLine, List.mem_filter]

theorem quadCovered_of_single (g : Geom) (p : Pt) (dx dy : Bool) (b : Rect)
    (hb : b ∈ g) (h : quadCovered [b] p dx dy = true) : quadCovered g p dx dy = true := by
  simp only [quadCovered, List.any_eq_true] at h ⊢
  obtain ⟨r, hr, hpr⟩ := h
  simp only [List.mem_singleton] at hr
  exact ⟨b, hb, hr ▸ hpr⟩

theorem within_of_single (p : Pt) (b : Rect) (g : Geom) (hb : b ∈ g)
    (h : within p [b] = true) : within p g = true := by
  simp only [within, Bool.and_eq_true] at h ⊢
  obtain ⟨⟨⟨h1, h2⟩, h3⟩, h4⟩ := h
  exact ⟨⟨⟨quadCovered_of_single g p true true b hb h1,
    quadCovered_of_single g p true false b hb h2⟩,
    quadCovered_of_single g p false true b hb h3⟩,
    quadCovered_of_single g p false false b hb h4⟩

theorem closure_of_within (p : Pt) (g : Geom) (h : within p g = true) :
    ∃ r ∈ g, r.memB p = true := by
  simp only [within, Bool.and_eq_true] at h
  obtain ⟨⟨⟨h1, _⟩, _⟩, _⟩ := h
  simp only [quadCovered, List.any_eq_true, Bool.and_eq_true] at h1
  obtain ⟨r, hr, ⟨hm, _⟩, _⟩ := h1
  exact ⟨r, hr, hm⟩

theorem centroid_isSome (rs : List Rect) (h : rs ≠ []) : ∃ c, centroid rs = some c := by
  cases rs with
  | nil => exact absurd rfl h
  | cons a as => exact ⟨_, rfl⟩

theorem alignPoints_recs (lines : LinesColl) (points : PointsColl) :
    (alignPoints lines points).recs = points.recs := by
  unfold alignPoints
  split <;> rfl

theorem to_crs_recs_points (c : PointsColl) (t : CRS) : (c.to_crs t).recs = c.recs := rfl

theorem to_crs_recs_lines (c : LinesColl) (t : CRS) : (c.to_crs t).recs = c.recs := rfl

theorem overallTierCounts_nil (tcf : Option String) : overallTierCounts tcf [] = [] := by
  cases tcf <;> simp [overallTierCounts]

theorem lineResults_nil_points (lines : List LineRec) (size : ℚ) (tcf : Option String) :
    lineResults lines size [] tcf = [] := by
  rw [lineResults, List.filterMap_eq_nil_iff]
  intro a ha
  simp [pointsInLine]

/-- Claim C2: if a point record appears in a line's per-line containment set
(it lies within that line's individual buffer), then it also lies within the
union of all buffers and appears in the global points-in-buffer set. -/
theorem perLine_subset_union (pts : List PointRec) (lines : List LineRec) (size : ℚ)
    (l : LineRec) (hl : l ∈ lines) (p : PointRec)
    (hp : p ∈ pointsInLine pts (bufferRect l.geom size)) :
    p ∈ pointsInBuffer pts (buffersOf lines size) := by
  rw [mem_pointsInLine] at hp
  rw [mem_pointsInBuffer]
  refine ⟨hp.1, within_of_single p.pos (bufferRect l.geom size) _ ?_ hp.2⟩
  simp only [buffersOf, List.mem_map]
  exact ⟨l, hl, rfl⟩

theorem perLine_subset_union_witness :
    (⟨(0, 0), []⟩ : PointRec) ∈
      pointsInBuffer [⟨(0, 0), []⟩] (buffersOf [⟨⟨0, 2, 0, 0⟩, []⟩] 2) := by
  refine perLine_subset_union [⟨(0, 0), []⟩] [⟨⟨0, 2, 0, 0⟩, []⟩] 2 ⟨⟨0, 2, 0, 0⟩, []⟩
    (by decide) ⟨(0, 0), []⟩ ?_
  rw [mem_pointsInLine]
  have hb : bufferRect (⟨0, 2, 0, 0⟩ : Rect) 2 = ⟨-2, 4, -2, 2⟩ := by
    norm_num [bufferRect, Rect.mk.injEq]
  rw [hb]
  exact ⟨by decide, by decide⟩

/-- Claim C3 counterexample: with two parallel line geometries whose buffers
are tangent along a shared edge, the midpoint of that edge is counted in the
union-buffer membership set yet belongs to neither line's per-line
containment set. -/
theorem union_not_covered_by_perLine_cex :
    (⟨(1, 2), []⟩ : PointRec) ∈
        pointsInBuffer [⟨(1, 2), []⟩] (buffersOf [⟨⟨0, 2, 0, 0⟩, []⟩, ⟨⟨0, 2, 4, 4⟩, []⟩] 2)
      ∧ (⟨(1, 2), []⟩ : PointRec) ∉
          pointsInLine [⟨(1, 2), []⟩] (bufferRect (⟨0, 2, 0, 0⟩ : Rect) 2)
      ∧ (⟨(1, 2), []⟩ : PointRec) ∉
          pointsInLine [⟨(1, 2), []⟩] (bufferRect (⟨0, 2, 4, 4⟩ : Rect) 2) := by
  have hb1 : bufferRect (⟨0, 2, 0, 0⟩ : Rect) 2 = ⟨-2, 4, -2, 2⟩ := by
    norm_num [bufferRect, Rect.mk.injEq]
  have hb2 : bufferRect (⟨0, 2, 4, 4⟩ : Rect) 2 = ⟨-2, 4, 2, 6⟩ := by
    norm_num [bufferRect, Rect.mk.injEq]
  have hg : buffersOf [⟨⟨0, 2, 0, 0⟩, []⟩, ⟨⟨0, 2, 4, 4⟩, []⟩] 2 = [⟨-2, 4, -2, 2⟩, ⟨-2, 4, 2, 6⟩] := by
    simp only [buffersOf, List.map_cons, List.map_nil, hb1, hb2]
  rw [hg, hb1, hb2]
  exact ⟨by decide, by decide, by decide⟩

/-- Claim C3 amended: every point record counted in the union-buffer
membership set lies in the closed region (interior or boundary) of at least
one line's buffer; appearing in a per-line containment set additionally
requires interior membership of that single buffer, which can fail when the
point lies only on shared buffer boundaries. -/
theorem union_member_in_some_closed_buffer (pts : List PointRec) (lines : List LineRec)
    (size : ℚ) (p : PointRec) (hp : p ∈ pointsInBuffer pts (buffersOf lines size)) :
    p ∈ pts ∧ ∃ l ∈ lines, (bufferRect l.geom size).memB p.pos = true := by
  rw [mem_pointsInBuffer] at hp
  obtain ⟨hmem, hw⟩ := hp
  obtain ⟨r, hr, hrm⟩ := closure_of_within p.pos _ hw
  simp only [buffersOf, List.mem_map] at hr
  obtain ⟨l, hl, rfl⟩ := hr
  exact ⟨hmem, l, hl, hrm⟩

theorem union_member_in_some_closed_buffer_witness :
    (⟨(1, 2), []⟩ : PointRec) ∈ [(⟨(1, 2), []⟩ : PointRec)]
      ∧ ∃ l ∈ [(⟨⟨0, 2, 0, 0⟩, []⟩ : LineRec), ⟨⟨0, 2, 4, 4⟩, []⟩],
          (bufferRect l.geom 2).memB ((⟨(1, 2), []⟩ : PointRec).pos) = true := by
  refine union_member_in_some_closed_buffer [⟨(1, 2), []⟩]
    [⟨⟨0, 2, 0, 0⟩, []⟩, ⟨⟨0, 2, 4, 4⟩, []⟩] 2 ⟨(1, 2), []⟩ ?_
  rw [mem_pointsInBuffer]
  have hg : buffersOf [⟨⟨0, 2, 0, 0⟩, []⟩, ⟨⟨0, 2, 4, 4⟩, []⟩] 2
      = [⟨-2, 4, -2, 2⟩, ⟨-2, 4, 2, 6⟩] := by
    norm_num [buffersOf, bufferRect, Rect.mk.injEq]
  rw [hg]
  exact ⟨by decide, by decide⟩

/-- Claim C9: both membership tests use the one boundary-exclusive predicate
`within`; a point record on the boundary of the buffer union is excluded
from the global points-in-buffer set, and a point record on the boundary of
an individual line's buffer is excluded from that line's containment set. -/
theorem within_boundary_exclusive (pts : List PointRec) (g : Geom) (b : Rect) (p : PointRec) :
    (onBoundary p.pos g → p ∉ pointsInBuffer pts g)
    ∧ (onBoundary p.pos [b] → p ∉ pointsInLine pts b) := by
  constructor
  · rintro ⟨_, hw⟩ hmem
    rw [mem_pointsInBuffer] at hmem
    rw [hw] at hmem
    exact Bool.false_ne_true hmem.2
  · rintro ⟨_, hw⟩ hmem
    rw [mem_pointsInLine] at hmem
    rw [hw] at hmem
    exact Bool.false_ne_true hmem.2

theorem within_boundary_exclusive_witness :
    ((⟨(0, 1), []⟩ : PointRec) ∉ pointsInBuffer [⟨(0, 1), []⟩] [⟨0, 2, 0, 2⟩])
      ∧ ((⟨(0, 1), []⟩ : PointRec) ∉ pointsInLine [⟨(0, 1), []⟩] ⟨0, 2, 0, 2⟩) :=
  ⟨(within_boundary_exclusive [⟨(0, 1), []⟩] [⟨0, 2, 0, 2⟩] ⟨0, 2, 0, 2⟩ ⟨(0, 1), []⟩).1
      ⟨by decide, by decide⟩,
    (within_boundary_exclusive [⟨(0, 1), []⟩] [⟨0, 2, 0, 2⟩] ⟨0, 2, 0, 2⟩ ⟨(0, 1), []⟩).2
      ⟨by decide, by decide⟩⟩

/-- Claim C4 counterexample: at centroid longitude 180 — a legal longitude
of a geographic CRS — the computed zone is 61, outside the valid range 1 to
60. -/
theorem utm_zone_at_180 : utm_zone 180 = 61 ∧ ¬ utm_zone 180 ≤ 60 := by
  have h : utm_zone 180 = 61 := by
    rw [utm_zone, pyInt, if_pos (by norm_num)]
    norm_num
  exact ⟨h, by rw [h]; norm_num⟩

/-- Claim C4 amended: the zone is computed by Python integer truncation,
which for longitudes at least -180 equals floor of ((lon + 180) / 6) plus 1;
it lies in the range 1 to 60 whenever -180 ≤ lon < 180, but equals 61 at
lon = 180.  The hemisphere is "north" exactly when the latitude is
nonnegative. -/
theorem utm_zone_spec (lon lat : ℚ) (h1 : -180 ≤ lon) :
    utm_zone lon = ⌊(lon + 180) / 6⌋ + 1
    ∧ (lon < 180 → 1 ≤ utm_zone lon ∧ utm_zone lon ≤ 60)
    ∧ (hemisphere lat = "north" ↔ 0 ≤ lat) := by
  have hnum : (0 : ℚ) ≤ lon + 180 := by linarith
  have h0 : (0 : ℚ) ≤ (lon + 180) / 6 := div_nonneg hnum (by norm_num)
  have hfloor : utm_zone lon = ⌊(lon + 180) / 6⌋ + 1 := by
    rw [utm_zone, pyInt, if_pos h0]
  refine ⟨hfloor, ?_, ?_⟩
  · intro h2
    have hlt : (lon + 180) / 6 < 60 := by
      rw [div_lt_iff₀ (by norm_num : (0 : ℚ) < 6)]
      linarith
    have hge : (0 : ℤ) ≤ ⌊(lon + 180) / 6⌋ := Int.floor_nonneg.mpr h0
    have hub : ⌊(lon + 180) / 6⌋ < 60 := by
      rw [Int.floor_lt]
      exact_mod_cast hlt
    constructor
    · rw [hfloor]; omega
    · rw [hfloor]; omega
  · by_cases hl : 0 ≤ lat
    · rw [hemisphere, if_pos hl]
      exact iff_of_true rfl hl
    · rw [hemisphere, if_neg hl]
      exact iff_of_false (by decide) hl

theorem utm_zone_spec_witness :
    utm_zone 0 = ⌊((0 : ℚ) + 180) / 6⌋ + 1
    ∧ ((0 : ℚ) < 180 → 1 ≤ utm_zone 0 ∧ utm_zone 0 ≤ 60)
    ∧ (hemisphere 0 = "north" ↔ (0 : ℚ) ≤ 0) :=
  utm_zone_spec 0 0 (by norm_num)

/-- Claim C5 counterexample: the attribute name "sEverity" equals the
configured name "severity" up to letter case, yet resolution fails, because
only the exact, lower-case, upper-case and capitalized variants of the
configured name are tried. -/
theorem tier_case_insensitive_cex :
    tierColFound "severity" ["sEverity"] = none
      ∧ pyLower "severity" = pyLower "sEverity" := by
  exact ⟨by decide, by decide⟩

/-- Claim C5 amended: tier resolution tries exactly the configured name and
its lower-case, upper-case and capitalized variants against the attribute
names, so any resolved name is one of those four and is an attribute.  When
none of the four is an attribute, the result's tier-column field is the
explicit "(not found)" sentinel appended to the configured name, the overall
tier counts are empty, and every per-line result carries no tier-count
mapping. -/
theorem tier_resolution_amended (pp : ParsedParams) (lines : LinesColl) (points : PointsColl)
    (lines_proj : LinesColl) (points_proj : PointsColl) :
    (∀ c, tierColFound pp.tier_column points.cols = some c →
        c ∈ [pp.tier_column, pyLower pp.tier_column, pyUpper pp.tier_column,
          pyCapitalize pp.tier_column] ∧ points.cols.contains c = true)
    ∧ (tierColFound pp.tier_column points.cols = none →
        (computeResult pp lines points lines_proj points_proj).tier_column
            = pp.tier_column ++ " (not found)"
        ∧ (computeResult pp lines points lines_proj points_proj).overall_tier_counts = []
        ∧ ∀ lr ∈ (computeResult pp lines points lines_proj points_proj).results_by_line,
            lr.tier_counts = none) := by
  constructor
  · intro c hc
    exact ⟨List.mem_of_find?_eq_some hc, List.find?_some hc⟩
  · intro hnone
    refine ⟨?_, ?_, ?_⟩
    · simp only [computeResult, hnone]
    · simp [computeResult, hnone, overallTierCounts]
    · intro lr hlr
      simp only [computeResult, hnone, lineResults, List.mem_filterMap] at hlr
      obtain ⟨il, _, hf⟩ := hlr
      by_cases hz :
          (pointsInLine points_proj.recs (bufferRect il.2.geom pp.buffer_size)).length = 0
      · rw [if_pos hz] at hf
        exact absurd hf (by simp)
      · rw [if_neg hz] at hf
        have h2 := Option.some.inj hf
        rw [← h2]
        rfl

theorem tier_resolution_amended_witness :
    (computeResult
        { database := "db", line_table := "roads", point_table := "incidents",
          buffer_size := 30, tier_column := "severity" }
        { crs := { tag := "EPSG:32633", is_geographic := false }, cols := [], recs := [] }
        { crs := { tag := "EPSG:32633", is_geographic := false }, cols := ["sEverity"], recs := [] }
        { crs := { tag := "EPSG:32633", is_geographic := false }, cols := [], recs := [] }
        { crs := { tag := "EPSG:32633", is_geographic := false }, cols := ["sEverity"],
          recs := [] }).tier_column = "severity (not found)"
    ∧ (computeResult
        { database := "db", line_table := "roads", point_table := "incidents",
          buffer_size := 30, tier_column := "severity" }
        { crs := { tag := "EPSG:32633", is_geographic := false }, cols := [], recs := [] }
        { crs := { tag := "EPSG:32633", is_geographic := false }, cols := ["sEverity"], recs := [] }
        { crs := { tag := "EPSG:32633", is_geographic := false }, cols := [], recs := [] }
        { crs := { tag := "EPSG:32633", is_geographic := false }, cols := ["sEverity"],
          recs := [] }).overall_tier_counts = []
    ∧ ∀ lr ∈ (computeResult
        { database := "db", line_table := "roads", point_table := "incidents",
          buffer_size := 30, tier_column := "severity" }
        { crs := { tag := "EPSG:32633", is_geographic := false }, cols := [], recs := [] }
        { crs := { tag := "EPSG:32633", is_geographic := false }, cols := ["sEverity"], recs := [] }
        { crs := { tag := "EPSG:32633", is_geographic := false }, cols := [], recs := [] }
        { crs := { tag := "EPSG:32633", is_geographic := false }, cols := ["sEverity"],
          recs := [] }).results_by_line, lr.tier_counts = none :=
  (tier_resolution_amended
    { database := "db", line_table := "roads", point_table := "incidents",
      buffer_size := 30, tier_column := "severity" }
    { crs := { tag := "EPSG:32633", is_geographic := false }, cols := [], recs := [] }
    { crs := { tag := "EPSG:32633", is_geographic := false }, cols := ["sEverity"], recs := [] }
    { crs := { tag := "EPSG:32633", is_geographic := false }, cols := [], recs := [] }
    { crs := { tag := "EPSG:32633", is_geographic := false }, cols := ["sEverity"],
      recs := [] }).2 (by decide)

/-- Claim C6 counterexample: the UTM projection constructed for zone 31
north is a raw proj parameter string; it is not an authority-code
construction, and no second attempt exists — lines 132–141 build the CRS in
a single interpolated string. -/
theorem utm_crs_single_attempt_cex :
    utm_crs 31 "north"
        = CrsSpec.projString "+proj=utm +zone=31 +north +datum=WGS84 +units=m +no_defs"
      ∧ (utm_crs 31 "north").isAuthorityCode = false :=
  ⟨by decide, by decide⟩

/-- Claim C6 amended: whenever the geographic branch of CRS normalization
runs (geographic shared CRS, non-empty line collection), the projection used
to reproject both collections is the single raw-proj-string construction
derived from the centroid; the construction is never by authority code and
no fallback or second attempt exists. -/
theorem utm_single_attempt (lines : LinesColl) (points : PointsColl)
    (hgeo : lines.crs.is_geographic = true) (hne : lines.recs ≠ []) :
    ∃ c lines_proj points_proj,
      centroid (lines.recs.map fun l => l.geom) = some c
      ∧ normalizeCrs lines points = .ok (lines_proj, points_proj)
      ∧ lines_proj.crs = crsOfSpec (utm_crs (utm_zone c.1) (hemisphere c.2))
      ∧ points_proj.crs = crsOfSpec (utm_crs (utm_zone c.1) (hemisphere c.2))
      ∧ (utm_crs (utm_zone c.1) (hemisphere c.2)).isAuthorityCode = false := by
  have hmap : lines.recs.map (fun l => l.geom) ≠ [] := by
    intro h
    exact hne (List.map_eq_nil_iff.mp h)
  obtain ⟨c, hc⟩ := centroid_isSome _ hmap
  refine ⟨c, lines.to_crs (crsOfSpec (utm_crs (utm_zone c.1) (hemisphere c.2))),
    (alignPoints lines points).to_crs (crsOfSpec (utm_crs (utm_zone c.1) (hemisphere c.2))),
    hc, ?_, rfl, rfl, rfl⟩
  simp only [normalizeCrs, hgeo, if_true, hc]

theorem utm_single_attempt_witness :
    ∃ c lines_proj points_proj,
      centroid ((⟨⟨"EPSG:4326", true⟩, [], [⟨⟨0, 0, 0, 0⟩, []⟩]⟩ : LinesColl).recs.map
            fun l => l.geom) = some c
      ∧ normalizeCrs (⟨⟨"EPSG:4326", true⟩, [], [⟨⟨0, 0, 0, 0⟩, []⟩]⟩ : LinesColl)
          (⟨⟨"EPSG:4326", true⟩, [], []⟩ : PointsColl)
          = .ok (lines_proj, points_proj)
      ∧ lines_proj.crs = crsOfSpec (utm_crs (utm_zone c.1) (hemisphere c.2))
      ∧ points_proj.crs = crsOfSpec (utm_crs (utm_zone c.1) (hemisphere c.2))
      ∧ (utm_crs (utm_zone c.1) (hemisphere c.2)).isAuthorityCode = false :=
  utm_single_attempt (⟨⟨"EPSG:4326", true⟩, [], [⟨⟨0, 0, 0, 0⟩, []⟩]⟩ : LinesColl)
    (⟨⟨"EPSG:4326", true⟩, [], []⟩ : PointsColl)
    rfl (by decide)

/-- Claim C8 counterexample: whether the line table or the point table lacks
a geometry column, the very same fixed error response is returned, naming
neither table. -/
theorem geom_cols_undifferentiated_cex :
    resolveGeomCols "roads" "incidents" [("incidents", "geom")]
        = .error { msg := "Could not find geometry columns for tables", status := 400 }
      ∧ resolveGeomCols "roads" "incidents" [("roads", "geom")]
        = .error { msg := "Could not find geometry columns for tables", status := 400 } :=
  ⟨rfl, rfl⟩

/-- Claim C8 amended: whenever either table is absent from the
geometry-columns mapping, the response is the one fixed message with status
400, independent of which of the two tables failed. -/
theorem geom_cols_fixed_message (lt pt : String) (info : List (String × String))
    (h : info.lookup lt = none ∨ info.lookup pt = none) :
    resolveGeomCols lt pt info
      = .error { msg := "Could not find geometry columns for tables", status := 400 } := by
  unfold resolveGeomCols
  rcases h with h | h
  · rw [h]
  · rw [h]
    cases info.lookup lt <;> rfl

theorem geom_cols_fixed_message_witness :
    resolveGeomCols "roads" "incidents" []
      = .error { msg := "Could not find geometry columns for tables", status := 400 } :=
  geom_cols_fixed_message "roads" "incidents" [] (Or.inl rfl)

/-- Claim C10 counterexample: a request whose three required parameters are
all present, with the database given as the empty string, still receives the
missing-parameter error. -/
theorem missing_params_empty_string_cex :
    parseParams (⟨some "", some "roads", some "incidents", none, none⟩ : ReqParams)
      = .error { msg := "Missing required parameters", status := 400 }
    ∧ (⟨some "", some "roads", some "incidents", none, none⟩ : ReqParams).database ≠ none :=
  ⟨rfl, by decide⟩

/-- Claim C10 amended: the missing-parameter error is returned exactly when
at least one of database, line table or point table is absent or empty
(Python-falsy); otherwise parsing succeeds, an absent buffer radius defaults
to 30 and an absent tier-column name defaults to "severity". -/
theorem missing_params_amended (req : ReqParams) :
    (parseParams req = .error { msg := "Missing required parameters", status := 400 }
        ↔ ¬(truthy req.database = true ∧ truthy req.line_table = true
              ∧ truthy req.point_table = true))
    ∧ ∀ pp, parseParams req = .ok pp →
        (req.buffer_size = none → pp.buffer_size = 30)
        ∧ (req.tier_column = none → pp.tier_column = "severity") := by
  by_cases hb : (truthy req.database && truthy req.line_table && truthy req.point_table) = true
  · have hok : parseParams req = .ok
        { database := req.database.getD ""
          line_table := req.line_table.getD ""
          point_table := req.point_table.getD ""
          buffer_size := req.buffer_size.getD 30
          tier_column := req.tier_column.getD "severity" } := by
      rw [parseParams, if_pos hb]
    constructor
    · rw [hok]
      constructor
      · intro h
        exact absurd h (by simp)
      · intro h
        rw [Bool.and_eq_true, Bool.and_eq_true] at hb
        exact absurd ⟨hb.1.1, hb.1.2, hb.2⟩ h
    · intro pp hpp
      rw [hok] at hpp
      have h2 := Except.ok.inj hpp
      constructor
      · intro hbnone
        rw [← h2]
        simp [hbnone]
      · intro htnone
        rw [← h2]
        simp [htnone]
  · have herr : parseParams req
        = .error { msg := "Missing required parameters", status := 400 } := by
      rw [parseParams, if_neg hb]
    constructor
    · rw [herr]
      constructor
      · intro _ hand
        rw [Bool.and_eq_true, Bool.and_eq_true] at hb
        exact hb ⟨⟨hand.1, hand.2.1⟩, hand.2.2⟩
      · intro _
        rfl
    · intro pp hpp
      rw [herr] at hpp
      exact absurd hpp (by simp)

theorem missing_params_amended_witness :
    parseParams (⟨none, some "a", some "b", none, none⟩ : ReqParams)
      = .error { msg := "Missing required parameters", status := 400 }
    ∧ (⟨"db", "a", "b", 30, "severity"⟩ : ParsedParams).buffer_size = 30
    ∧ (⟨"db", "a", "b", 30, "severity"⟩ : ParsedParams).tier_column = "severity" := by
  refine ⟨(missing_params_amended _).1.mpr (by decide), ?_, ?_⟩
  · exact ((missing_params_amended (⟨some "db", some "a", some "b", none, none⟩ : ReqParams)).2
      (⟨"db", "a", "b", 30, "severity"⟩ : ParsedParams) rfl).1 rfl
  · exact ((missing_params_amended (⟨some "db", some "a", some "b", none, none⟩ : ReqParams)).2
      (⟨"db", "a", "b", 30, "severity"⟩ : ParsedParams) rfl).2 rfl

/-- Claim C7: a request whose point collection has zero records, with a
non-empty line collection, present parameters and both tables carrying
geometry columns, succeeds and returns a result with zero points in buffer,
an empty per-line sequence and empty tier counts. -/
theorem empty_points_zero_counts (req : ReqParams) (geomInfo : List (String × String))
    (lines : LinesColl) (points : PointsColl)
    (hdb : truthy req.database = true) (hlt : truthy req.line_table = true)
    (hpt : truthy req.point_table = true)
    (hg1 : (geomInfo.lookup (req.line_table.getD "")).isSome = true)
    (hg2 : (geomInfo.lookup (req.point_table.getD "")).isSome = true)
    (hlines : lines.recs ≠ []) (hpts : points.recs = []) :
    ∃ r, analyze req geomInfo lines points = .ok r
      ∧ r.total_points_in_buffer = 0 ∧ r.total_points = 0
      ∧ r.overall_tier_counts = [] ∧ r.results_by_line = [] := by
  have hcond :
      (truthy req.database && truthy req.line_table && truthy req.point_table) = true := by
    rw [hdb, hlt, hpt]
    rfl
  have hok : parseParams req = .ok
      { database := req.database.getD ""
        line_table := req.line_table.getD ""
        point_table := req.point_table.getD ""
        buffer_size := req.buffer_size.getD 30
        tier_column := req.tier_column.getD "severity" } := by
    rw [parseParams, if_pos hcond]
  obtain ⟨lg, hlg⟩ := Option.isSome_iff_exists.mp hg1
  obtain ⟨pg, hpg⟩ := Option.isSome_iff_exists.mp hg2
  have hres : resolveGeomCols (req.line_table.getD "") (req.point_table.getD "") geomInfo
      = .ok (lg, pg) := by
    unfold resolveGeomCols
    rw [hlg, hpg]
  obtain ⟨lp, pq, hnc, hrecs⟩ :
      ∃ lp pq, normalizeCrs lines points = .ok (lp, pq) ∧ pq.recs = points.recs := by
    cases hgeo : lines.crs.is_geographic with
    | false =>
      refine ⟨lines, alignPoints lines points, ?_, alignPoints_recs lines points⟩
      simp only [normalizeCrs, hgeo, Bool.false_eq_true, if_false]
    | true =>
      obtain ⟨c, hc⟩ := centroid_isSome (lines.recs.map fun l => l.geom)
        (fun h => hlines (List.map_eq_nil_iff.mp h))
      refine ⟨lines.to_crs (crsOfSpec (utm_crs (utm_zone c.1) (hemisphere c.2))),
        (alignPoints lines points).to_crs (crsOfSpec (utm_crs (utm_zone c.1) (hemisphere c.2))),
        ?_, alignPoints_recs lines points⟩
      simp only [normalizeCrs, hgeo, if_true, hc]
  refine ⟨computeResult
      { database := req.database.getD ""
        line_table := req.line_table.getD ""
        point_table := req.point_table.getD ""
        buffer_size := req.buffer_size.getD 30
        tier_column := req.tier_column.getD "severity" } lines points lp pq,
    ?_, ?_, ?_, ?_, ?_⟩
  · simp only [analyze, hok, hres, hnc]
  · simp [computeResult, hrecs, hpts, pointsInBuffer]
  · simp [computeResult, hpts]
  · simp [computeResult, hrecs, hpts, pointsInBuffer, overallTierCounts_nil]
  · simp [computeResult, hrecs, hpts, lineResults_nil_points]

theorem empty_points_zero_counts_witness :
    ∃ r, analyze (⟨some "db", some "roads", some "incidents", none, none⟩ : ReqParams)
        [("roads", "geom"), ("incidents", "geom")]
        (⟨⟨"EPSG:32633", false⟩, ["gid"], [⟨⟨0, 2, 0, 0⟩, []⟩]⟩ : LinesColl)
        (⟨⟨"EPSG:32633", false⟩, ["severity"], []⟩ : PointsColl) = .ok r
      ∧ r.total_points_in_buffer = 0 ∧ r.total_points = 0
      ∧ r.overall_tier_counts = [] ∧ r.results_by_line = [] :=
  empty_points_zero_counts (⟨some "db", some "roads", some "incidents", none, none⟩ : ReqParams)
    [("roads", "geom"), ("incidents", "geom")]
    (⟨⟨"EPSG:32633", false⟩, ["gid"], [⟨⟨0, 2, 0, 0⟩, []⟩]⟩ : LinesColl)
    (⟨⟨"EPSG:32633", false⟩, ["severity"], []⟩ : PointsColl)
    rfl rfl rfl rfl rfl (by decide) rfl

/-- Claim C1: evaluation of the endpoint at requests whose line table yields
zero records.  No empty-input check exists: with a metric shared CRS the
pipeline proceeds through buffering and returns a success payload with zero
counts, and with a geographic shared CRS it fails at the centroid
computation with a generic 500 response — in neither case is a dedicated
empty-input error signalled before centroid computation or buffering. -/
theorem empty_lines_no_empty_input_error :
    analyze (⟨some "db", some "roads", some "incidents", none, none⟩ : ReqParams)
        [("roads", "geom"), ("incidents", "geom")]
        (⟨⟨"EPSG:32633", false⟩, ["gid"], []⟩ : LinesColl)
        (⟨⟨"EPSG:32633", false⟩, ["gid", "severity"],
          [⟨(0, 0), [("severity", "high")]⟩]⟩ : PointsColl)
      = .ok { total_points_in_buffer := 0
              total_points := 1
              line_count := 0
              buffer_size := 30
              tier_column := "severity"
              overall_tier_counts := []
              results_by_line := [] }
    ∧ analyze (⟨some "db", some "roads", some "incidents", none, none⟩ : ReqParams)
        [("roads", "geom"), ("incidents", "geom")]
        (⟨⟨"EPSG:4326", true⟩, ["gid"], []⟩ : LinesColl)
        (⟨⟨"EPSG:4326", true⟩, ["gid", "severity"],
          [⟨(0, 0), [("severity", "high")]⟩]⟩ : PointsColl)
      = .error { msg := "centroid of empty geometry collection has no coordinates",
                 status := 500 } :=
  ⟨rfl, rfl⟩

end App
